import Mathlib

/-!
Verification of the fat-wallet market bot core against its specification.

The development shallowly embeds the Python sources:
  src/market_bot_v2.py : indicator computation (calculate_rpp,
    calculate_bollinger_bands), signal classification (analyze_stock) and
    the cache-aware fetch (fetch_and_cache_stock_data);
  src/database.py      : cache staleness (needs_update,
    get_last_cached_date, get_cached_stock_data, save_stock_data),
    configuration (init_database, get_config), watchlist
    (add_to_watchlist, remove_from_watchlist) and signal history.

Floating point numbers are embedded as rationals; the standard deviation
inside the Bollinger computation involves a square root and therefore lives
in the reals.  Dates are integers (days); "now" is a rational number of days
so that time-of-day is representable.  Fallible or exception-raising code is
embedded with Option results, and the per-ticker database state is passed
explicitly.
-/

/-- One OHLCV row, as stored in the stock_data table / yfinance frame.
The date is a calendar day number. -/
structure Bar where
  date : ℤ
  opn : ℚ
  high : ℚ
  low : ℚ
  close : ℚ
  volume : ℤ
deriving DecidableEq, Repr

/-- The trailing n elements of a list: pandas df.tail(n). -/
def tailN (n : Nat) (l : List α) : List α := l.drop (l.length - n)

/-- Minimum of a column, 0 on an empty frame (pandas min over a series);
only ever applied to nonempty windows. -/
def seriesMin (l : List ℚ) : ℚ :=
  match l with
  | [] => 0
  | x :: xs => xs.foldl min x

/-- Maximum of a column, 0 on an empty frame; only ever applied to
nonempty windows. -/
def seriesMax (l : List ℚ) : ℚ :=
  match l with
  | [] => 0
  | x :: xs => xs.foldl max x

/-- calculate_rpp from src/market_bot_v2.py (identical in
src/market_bot.py): the pair (rpp_score, current_price), either of which
may be undefined. -/
def calculate_rpp (df : Option (List Bar)) : Option ℚ × Option ℚ :=
  match df with
  | none => (none, none)
  | some l =>
    if l.length < 20 then (none, none)
    else
      let df_180 := if 180 ≤ l.length then tailN 180 l else l
      let min_price := seriesMin (df_180.map Bar.low)
      let max_price := seriesMax (df_180.map Bar.high)
      let current_price := (df_180.map Bar.close).getLastD 0
      if max_price = min_price then (none, some current_price)
      else (some ((current_price - min_price) / (max_price - min_price) * 100),
            some current_price)

/-- Arithmetic mean of a list of rationals (pandas rolling mean at the last
position of a window). -/
def mean (l : List ℚ) : ℚ := l.sum / (l.length : ℚ)

/-- Sample variance with ddof = 1, the default of pandas rolling std. -/
def sampleVar (l : List ℚ) : ℚ :=
  ((l.map fun x => (x - mean l) ^ 2).sum) / ((l.length : ℚ) - 1)

/-- calculate_bollinger_bands from src/market_bot_v2.py (identical in
src/market_bot.py): (upper, middle, lower, current_price).  The rolling
mean and std evaluated at .iloc[-1] are the mean and sample standard
deviation of the trailing window of the closes.  Callers pass window = 20
and num_std = 2, the defaults of the Python signature. -/
noncomputable def calculate_bollinger_bands (df : Option (List Bar))
    (window : Nat) (num_std : ℚ) :
    Option ℝ × Option ℝ × Option ℝ × Option ℝ :=
  match df with
  | none => (none, none, none, none)
  | some l =>
    if l.length < window then (none, none, none, none)
    else
      let close_prices := l.map Bar.close
      let w := tailN window close_prices
      let sma : ℚ := mean w
      let std_dev : ℝ := Real.sqrt ((sampleVar w : ℚ) : ℝ)
      let upper : ℝ := (sma : ℝ) + std_dev * (num_std : ℝ)
      let lower : ℝ := (sma : ℝ) - std_dev * (num_std : ℝ)
      let current_price := close_prices.getLastD 0
      (some upper, some (sma : ℝ), some lower, some ((current_price : ℚ) : ℝ))

/-- The two signal kinds the classifier can produce (the strings
STRONG BUY and STRONG SELL in the source). -/
inductive SignalKind where
  | strongBuy
  | strongSell
deriving DecidableEq, Repr

/-- The human-readable trigger strings of analyze_stock, with the numeric
values they interpolate. -/
inductive Trigger where
  | priceBelowLowerBand (lower_band : ℝ)
  | rppBelowBuyThreshold (rpp_score rpp_buy : ℚ)
  | priceAboveUpperBand (upper_band : ℝ)
  | rppAboveSellThreshold (rpp_score rpp_sell : ℚ)

/-- The dictionary analyze_stock returns when a signal fires. -/
structure AnalysisResult where
  signal : SignalKind
  current_price : ℚ
  rpp_score : ℚ
  lower_band : ℝ
  upper_band : ℝ
  middle_band : ℝ
  triggers : List Trigger

open scoped Classical in
/-- The classification part of analyze_stock from src/market_bot_v2.py:
indicators are computed from the bar series, and the verdict plus trigger
strings are produced exactly as in the source (buy checked before sell).
The fetch step is a parameter (the df argument); the thresholds come from
config at the call site.  States in which Python would compare None to a
float (unreachable, since a defined rpp_score forces a defined
current_price and a defined lower band forces the other bands) fall
through to none. -/
noncomputable def analyze_stock (df : Option (List Bar))
    (rpp_buy rpp_sell : ℚ) : Option AnalysisResult :=
  match df with
  | none => none
  | some l =>
    match calculate_rpp (some l), calculate_bollinger_bands (some l) 20 2 with
    | (some rpp_score, some current_price),
      (some upper_band, some middle_band, some lower_band, _) =>
      if (current_price : ℝ) < lower_band ∧ rpp_score < rpp_buy then
        some { signal := SignalKind.strongBuy
               current_price := current_price
               rpp_score := rpp_score
               lower_band := lower_band
               upper_band := upper_band
               middle_band := middle_band
               triggers := [Trigger.priceBelowLowerBand lower_band,
                            Trigger.rppBelowBuyThreshold rpp_score rpp_buy] }
      else if upper_band < (current_price : ℝ) ∧ rpp_sell < rpp_score then
        some { signal := SignalKind.strongSell
               current_price := current_price
               rpp_score := rpp_score
               lower_band := lower_band
               upper_band := upper_band
               middle_band := middle_band
               triggers := [Trigger.priceAboveUpperBand upper_band,
                            Trigger.rppAboveSellThreshold rpp_score rpp_sell] }
      else none
    | _, _ => none

/-- A bar with the given close, flat 90/110 low/high range, used in
concrete evaluations. -/
def mkBar (c : ℚ) : Bar :=
  { date := 0, opn := c, high := 110, low := 90, close := c, volume := 0 }

/-! ## HistoryCache (src/database.py)

The per-ticker state of the stock_data table is the list of that ticker's
rows.  The current instant now is a rational number of days; a date string
parsed by strptime is the midnight of its day, so the Python expression
(today - last_date_obj).days is the floor of the rational difference. -/

/-- get_last_cached_date: SELECT MAX(date) over the rows of the ticker,
None when there is no row. -/
def get_last_cached_date (rows : List Bar) : Option ℤ :=
  match rows.map Bar.date with
  | [] => none
  | d :: ds => some (ds.foldl max d)

/-- needs_update: stale when there is no cached row, or when
(today - last_date_obj).days is at least 1. -/
def needs_update (rows : List Bar) (now : ℚ) : Bool :=
  match get_last_cached_date rows with
  | none => true
  | some d => decide (1 ≤ ⌊now - (d : ℚ)⌋)

/-- get_cached_stock_data: the rows whose date is at least the cutoff
(now minus the lookback), ordered by date; None when no row matches.
Callers pass days = 180, the default of the Python signature. -/
def get_cached_stock_data (rows : List Bar) (now : ℚ) (days : ℤ) :
    Option (List Bar) :=
  let cutoff_date : ℤ := ⌊now - (days : ℚ)⌋
  let df := (rows.filter fun r => decide (cutoff_date ≤ r.date)).mergeSort
    fun a b => decide (a.date ≤ b.date)
  if df.isEmpty then none else some df

/-- save_stock_data: INSERT OR REPLACE each fetched row, keyed by date
(the ticker is fixed). -/
def save_stock_data (rows : List Bar) (df : List Bar) : List Bar :=
  df.foldl (fun acc r => (acc.filter fun x => decide (x.date ≠ r.date)) ++ [r]) rows

/-- What one call to the market-data provider does: a frame (possibly
empty), or a raised exception. -/
inductive FetchOutcome where
  | ok (df : List Bar)
  | err

/-- fetch_and_cache_stock_data from src/market_bot_v2.py.  The result is
(returned series, new cache state, whether the provider was called).  The
try/except around the provider call is embedded by the err branch: an
exception downgrades to the cache fallback instead of propagating. -/
def fetch_and_cache_stock_data (rows : List Bar) (now : ℚ)
    (provider : FetchOutcome) : Option (List Bar) × List Bar × Bool :=
  if ¬ needs_update rows now then (get_cached_stock_data rows now 180, rows, false)
  else
    match provider with
    | FetchOutcome.ok df =>
      if df.isEmpty then (get_cached_stock_data rows now 180, rows, true)
      else (some df, save_stock_data rows df, true)
    | FetchOutcome.err => (get_cached_stock_data rows now 180, rows, true)

/-! ## Configuration (src/database.py) -/

/-- INSERT OR IGNORE of one (key, value) pair into the config table. -/
def insert_or_ignore (cfg : List (String × String)) (kv : String × String) :
    List (String × String) :=
  if (cfg.map Prod.fst).contains kv.1 then cfg else cfg ++ [kv]

/-- The default_config list of init_database. -/
def default_config : List (String × String) :=
  [("check_interval", "900"),
   ("rpp_buy_threshold", "10"),
   ("rpp_sell_threshold", "90"),
   ("admin_user_id", "1937651844")]

/-- The effect of init_database on the config table: INSERT OR IGNORE of
each default pair. -/
def init_database_config (cfg : List (String × String)) :
    List (String × String) :=
  default_config.foldl insert_or_ignore cfg

/-- get_config: the value stored under the key, None when absent. -/
def get_config (cfg : List (String × String)) (key : String) : Option String :=
  (cfg.find? fun kv => kv.1 = key).map Prod.snd

/-! ## Watchlist (src/database.py)

A watchlist row is (ticker, optional display name); the ticker column is
UNIQUE, so an INSERT of a present ticker raises IntegrityError. -/

/-- The Python str.upper() method on the ASCII ticker symbols the bot
handles: upper-case every character. -/
def pyUpper (s : String) : String := ⟨s.data.map Char.toUpper⟩

/-- add_to_watchlist: insert (ticker.upper(), name); on IntegrityError
(the upper-cased ticker is already a stored ticker) return False leaving
the table unchanged. -/
def add_to_watchlist (wl : List (String × Option String)) (ticker : String)
    (name : Option String) : Bool × List (String × Option String) :=
  if (wl.map Prod.fst).contains (pyUpper ticker) then (false, wl)
  else (true, wl ++ [(pyUpper ticker, name)])

/-- remove_from_watchlist: DELETE WHERE ticker = ticker.upper(); the result
is whether the rowcount of deleted rows is positive. -/
def remove_from_watchlist (wl : List (String × Option String))
    (ticker : String) : Bool × List (String × Option String) :=
  let wl2 := wl.filter fun e => decide (e.1 ≠ pyUpper ticker)
  (decide (wl2.length < wl.length), wl2)

/-! ## DeduplicationPolicy -/

/-- One row of the signal_history table for a ticker: kind, price at
detection, RPP score, and creation time (a rational number of hours, so
elapsed-time comparisons against the configured cooldown are direct). -/
structure SignalRecord where
  kind : SignalKind
  price : ℚ
  rpp_score : ℚ
  created_at : ℚ

/-- The reasons the deduplication decision reports. -/
inductive DedupReason where
  | forced
  | firstSignal
  | flipped
  | cooldownElapsed
  | significantPriceChange
  | duplicate
deriving DecidableEq, Repr

/-- Modelled from the spec: get_last_signal is called by
src/test_deduplication.py but its definition is not among the provided
sources; section 4.4 of the spec says the policy looks up the most recent
SignalRecord of the ticker.  The history list is the ticker's append-only
log in chronological order, so the most recent record is the last. -/
def get_last_signal (history : List SignalRecord) : Option SignalRecord :=
  history.getLast?

/-- Modelled from the spec: should_send_signal is called by
check_all_stocks in src/market_bot_v2.py and by src/test_deduplication.py
but its definition is not among the provided sources; section 4.4 of the
spec gives the decision procedure, followed here step by step (force,
first signal, flip, cooldown elapsed, significant price change,
suppress).  cooldownHours and priceChangePct are the two configured
parameters and now is the current time in hours. -/
def should_send_signal (history : List SignalRecord) (newKind : SignalKind)
    (newPrice : ℚ) (cooldownHours priceChangePct : ℚ) (now : ℚ)
    (force : Bool) : Bool × DedupReason :=
  if force then (true, DedupReason.forced)
  else
    match get_last_signal history with
    | none => (true, DedupReason.firstSignal)
    | some r =>
      if newKind ≠ r.kind then (true, DedupReason.flipped)
      else if 0 < cooldownHours ∧ cooldownHours ≤ now - r.created_at then
        (true, DedupReason.cooldownElapsed)
      else if priceChangePct ≤ |newPrice - r.price| / r.price * 100 then
        (true, DedupReason.significantPriceChange)
      else (false, DedupReason.duplicate)

/-! ## Watchlist theorems -/

/-- C9: a ticker whose upper-cased form is already a stored ticker is
rejected — add_to_watchlist returns False and the table (hence the stored
display name) is unchanged; a ticker not yet present is stored upper-cased
with success True. -/
theorem add_to_watchlist_case_insensitive_unique
    (wl : List (String × Option String)) (ticker : String)
    (name : Option String) :
    (pyUpper ticker ∈ wl.map Prod.fst →
      add_to_watchlist wl ticker name = (false, wl)) ∧
    (pyUpper ticker ∉ wl.map Prod.fst →
      add_to_watchlist wl ticker name = (true, wl ++ [(pyUpper ticker, name)])) := by
  constructor <;> intro h <;> simp [add_to_watchlist, h]

example :
    add_to_watchlist [("MSFT", some "Microsoft")] "msft" (some "Msft2") =
      (false, [("MSFT", some "Microsoft")]) ∧
    add_to_watchlist [] "MSFT" (some "Microsoft") =
      (true, [("MSFT", some "Microsoft")]) := by decide

/-- C10: remove_from_watchlist returns True exactly when an entry with the
upper-cased ticker existed; afterwards no such entry remains; on False the
watchlist is unchanged; a second removal of the same ticker returns
False. -/
theorem remove_from_watchlist_spec (wl : List (String × Option String))
    (ticker : String) :
    ((remove_from_watchlist wl ticker).1 = true ↔
      pyUpper ticker ∈ wl.map Prod.fst) ∧
    (pyUpper ticker ∉ (remove_from_watchlist wl ticker).2.map Prod.fst) ∧
    ((remove_from_watchlist wl ticker).1 = false →
      (remove_from_watchlist wl ticker).2 = wl) ∧
    ((remove_from_watchlist (remove_from_watchlist wl ticker).2 ticker).1 = false) := by
  have hmem : ∀ ws : List (String × Option String),
      (List.filter (fun e => decide (e.1 ≠ pyUpper ticker)) ws).length < ws.length ↔
        pyUpper ticker ∈ ws.map Prod.fst := by
    intro ws
    rw [List.length_filter_lt_length_iff_exists]
    simp [List.mem_map]
  refine ⟨?_, ?_, ?_, ?_⟩
  · simp only [remove_from_watchlist, decide_eq_true_eq]
    exact hmem wl
  · simp only [remove_from_watchlist, List.mem_map]
    rintro ⟨a, ha, heq⟩
    have := List.mem_filter.mp ha
    simp only [decide_eq_true_eq] at this
    exact this.2 heq
  · simp only [remove_from_watchlist, decide_eq_false_iff_not]
    intro hnot
    apply List.filter_eq_self.mpr
    intro a ha
    simp only [decide_eq_true_eq]
    intro heq
    exact hnot ((hmem wl).mpr (List.mem_map.mpr ⟨a, ha, heq⟩))
  · simp only [remove_from_watchlist, decide_eq_false_iff_not]
    intro hlt
    rw [hmem _] at hlt
    simp only [List.mem_map] at hlt
    rcases hlt with ⟨a, ha, heq⟩
    have := List.mem_filter.mp ha
    simp only [decide_eq_true_eq] at this
    exact this.2 heq

example :
    remove_from_watchlist [("MSFT", some "Microsoft")] "msft" = (true, []) ∧
    remove_from_watchlist ([] : List (String × Option String)) "msft" = (false, []) := by
  decide

/-! ## Configuration theorems -/

/-- C6 (failing evaluation): on a fresh config table, init_database leaves
signal_cooldown_hours and price_change_threshold without a stored value —
get_config returns None for them — while the four keys of default_config
do get their defaults.  This contradicts the spec (all six required keys
have defaults), the assertion in src/test_deduplication.py that reads
signal_cooldown_hours as 24 after init_database, and cmd_settings in
src/market_bot_v2.py, which converts both missing values with float()
and int(). -/
theorem init_database_config_missing_keys :
    get_config (init_database_config []) "signal_cooldown_hours" = none ∧
    get_config (init_database_config []) "price_change_threshold" = none ∧
    get_config (init_database_config []) "check_interval" = some "900" ∧
    get_config (init_database_config []) "rpp_buy_threshold" = some "10" ∧
    get_config (init_database_config []) "rpp_sell_threshold" = some "90" ∧
    get_config (init_database_config []) "admin_user_id" = some "1937651844" := by
  decide

/-! ## HistoryCache theorems -/

/-- C4 (counterexample to the claim as stated): with one cached bar of
date 0 and the current instant exactly one day later (now = 1, the
midnight of day 1), needs_update returns true although the most recent
cached date is not strictly more than 1 day older than now, and also not
strictly more than 1 day older than the current day (day 1). -/
theorem needs_update_claim_counterexample :
    needs_update [mkBar 100] 1 = true ∧
    get_last_cached_date [mkBar 100] = some 0 ∧
    ¬ ((1 : ℚ) - ((0 : ℤ) : ℚ) > 1) ∧
    ¬ ((1 : ℤ) - 0 > 1) := by
  refine ⟨?_, rfl, by norm_num, by norm_num⟩
  norm_num [needs_update, get_last_cached_date, mkBar]

/-- C4 (amended): needs_update is true exactly when no cached bar exists
or the elapsed time from the most recent cached date to now is at least
1 day (equivalently the cached date is strictly before the current
calendar day); in particular it is true for a never-seen ticker, false
right after caching bars whose latest date is the current day, and true
again once a full day has elapsed. -/
theorem needs_update_amended (rows : List Bar) (now : ℚ) :
    (needs_update rows now = true ↔
      (get_last_cached_date rows = none ∨
        ∃ d, get_last_cached_date rows = some d ∧ 1 ≤ now - (d : ℚ))) ∧
    (get_last_cached_date rows = none → needs_update rows now = true) ∧
    (get_last_cached_date rows = some ⌊now⌋ → needs_update rows now = false) ∧
    (∀ d, get_last_cached_date rows = some d → 1 ≤ now - (d : ℚ) →
      needs_update rows now = true) := by
  cases h : get_last_cached_date rows with
  | none => simp [needs_update, h]
  | some d =>
    have hfloor : (1 ≤ ⌊now - (d : ℚ)⌋) ↔ 1 ≤ now - (d : ℚ) := by
      rw [Int.le_floor]
      norm_num
    refine ⟨?_, by simp [h], ?_, ?_⟩
    · simp only [needs_update, h, decide_eq_true_eq, hfloor]
      constructor
      · intro hle
        exact Or.inr ⟨d, rfl, hle⟩
      · rintro (hc | ⟨d2, hd2, hle⟩)
        · exact absurd hc (by simp)
        · injection hd2 with hd2
          exact hd2 ▸ hle
    · intro hd
      injection hd with hdd
      subst hdd
      simp only [needs_update, h, decide_eq_false_iff_not, hfloor]
      intro hge
      have := Int.fract_lt_one now
      rw [Int.fract] at this
      linarith
    · intro d2 hd2 hle
      injection hd2 with hdd
      subst hdd
      simp only [needs_update, h, decide_eq_true_eq, hfloor]
      exact hle

/-- C5: fetch_and_cache_stock_data never propagates a provider failure.
When the cache is fresh the cached series is returned without calling the
provider; a non-empty fetched series is merged into the cache and
returned itself; on a raised provider exception or an empty result the
function falls back to whatever the cache holds, leaving the cache
unchanged. -/
theorem fetch_and_cache_stock_data_spec (rows : List Bar) (now : ℚ)
    (provider : FetchOutcome) :
    (needs_update rows now = false →
      fetch_and_cache_stock_data rows now provider =
        (get_cached_stock_data rows now 180, rows, false)) ∧
    (provider = FetchOutcome.err →
      (fetch_and_cache_stock_data rows now provider).1 =
        get_cached_stock_data rows now 180 ∧
      (fetch_and_cache_stock_data rows now provider).2.1 = rows) ∧
    (∀ df, provider = FetchOutcome.ok df → df = [] →
      (fetch_and_cache_stock_data rows now provider).1 =
        get_cached_stock_data rows now 180 ∧
      (fetch_and_cache_stock_data rows now provider).2.1 = rows) ∧
    (∀ df, provider = FetchOutcome.ok df → df ≠ [] →
      needs_update rows now = true →
      fetch_and_cache_stock_data rows now provider =
        (some df, save_stock_data rows df, true)) := by
  refine ⟨?_, ?_, ?_, ?_⟩
  · intro hfresh
    simp [fetch_and_cache_stock_data, hfresh]
  · intro herr
    subst herr
    by_cases hfresh : needs_update rows now <;>
      simp [fetch_and_cache_stock_data, hfresh]
  · intro df hok hdf
    subst hok hdf
    by_cases hfresh : needs_update rows now <;>
      simp [fetch_and_cache_stock_data, hfresh]
  · intro df hok hdf hstale
    subst hok
    simp [fetch_and_cache_stock_data, hstale, List.isEmpty_iff, hdf]

/-! ## DeduplicationPolicy theorems -/

/-- C1: the deduplication decision sends when forced; on the first-ever
signal for the ticker it sends with reason first signal; a kind flip sends
unconditionally; for a repeat of the same kind it sends exactly when the
cooldown is positive and has elapsed, or the relative price change meets
the configured percentage (regardless of cooldown); otherwise it
suppresses.  With cooldownHours = 0 the cooldown branch is unreachable,
so only the price-change escape remains.  The decision depends on the
history only through its most recent record. -/
theorem should_send_signal_spec (history : List SignalRecord)
    (k : SignalKind) (p cd pct now : ℚ) (force : Bool) :
    (force = true →
      should_send_signal history k p cd pct now force =
        (true, DedupReason.forced)) ∧
    (force = false → get_last_signal history = none →
      should_send_signal history k p cd pct now force =
        (true, DedupReason.firstSignal)) ∧
    (∀ r, force = false → get_last_signal history = some r → k ≠ r.kind →
      should_send_signal history k p cd pct now force =
        (true, DedupReason.flipped)) ∧
    (∀ r, force = false → get_last_signal history = some r → k = r.kind →
      ((should_send_signal history k p cd pct now force).1 = true ↔
        ((0 < cd ∧ cd ≤ now - r.created_at) ∨
          pct ≤ |p - r.price| / r.price * 100))) ∧
    (∀ r, cd = 0 → force = false → get_last_signal history = some r →
      k = r.kind →
      ((should_send_signal history k p cd pct now force).1 = true ↔
        pct ≤ |p - r.price| / r.price * 100)) ∧
    (∀ history2, get_last_signal history2 = get_last_signal history →
      should_send_signal history2 k p cd pct now force =
        should_send_signal history k p cd pct now force) := by
  refine ⟨?_, ?_, ?_, ?_, ?_, ?_⟩
  · intro hf
    simp [should_send_signal, hf]
  · intro hf hl
    simp [should_send_signal, hf, hl]
  · intro r hf hl hk
    simp [should_send_signal, hf, hl, hk]
  · intro r hf hl hk
    simp only [should_send_signal, hf, hl, if_false, Bool.false_eq_true, hk,
      ne_eq, not_true_eq_false]
    split_ifs with h1 h2
    · simp [h1]
    · simp [h1, h2]
    · simp [h1, h2]
  · intro r hcd hf hl hk
    subst hcd
    simp only [should_send_signal, hf, hl, if_false, Bool.false_eq_true, hk,
      ne_eq, not_true_eq_false]
    split_ifs with h1 h2
    · exact absurd h1.1 (lt_irrefl 0)
    · simp [h2]
    · simp [h2]
  · intro history2 hsame
    simp [should_send_signal, hsame]

example :
    (should_send_signal [] SignalKind.strongBuy 100 24 5 0 false).1 = true ∧
    (should_send_signal [⟨SignalKind.strongBuy, 100, 8.5, 0⟩]
      SignalKind.strongBuy 100 24 5 1 false).1 = false ∧
    (should_send_signal [⟨SignalKind.strongBuy, 100, 8.5, 0⟩]
      SignalKind.strongSell 120 24 5 1 false).1 = true ∧
    (should_send_signal [⟨SignalKind.strongBuy, 100, 8.5, 0⟩,
        ⟨SignalKind.strongSell, 120, 92, 1⟩]
      SignalKind.strongSell 127.2 24 5 2 false).1 = true ∧
    (should_send_signal [⟨SignalKind.strongSell, 120, 92, 1⟩]
      SignalKind.strongSell 120 24 5 2 true).1 = true ∧
    (should_send_signal [⟨SignalKind.strongBuy, 50, 5, 0⟩]
      SignalKind.strongBuy 50 0 5 1000 false).1 = false := by
  norm_num [should_send_signal, get_last_signal, abs]
  decide

/-! ## IndicatorEngine and SignalClassifier theorems -/

/-- A series shorter than 20 bars has an undefined RPP and an undefined
current price. -/
theorem calculate_rpp_short (l : List Bar) (h : l.length < 20) :
    calculate_rpp (some l) = (none, none) := by
  simp [calculate_rpp, h]

/-- On at least 20 bars the conditional trailing window of calculate_rpp
is uniformly the trailing at-most-180-bar window. -/
theorem rpp_window_eq (l : List Bar) :
    (if 180 ≤ l.length then tailN 180 l else l) = l.drop (l.length - 180) := by
  by_cases h : 180 ≤ l.length
  · simp [h, tailN]
  · have : l.length - 180 = 0 := Nat.sub_eq_zero_of_le (le_of_lt (Nat.not_le.mp h))
    simp [h, this]

/-- The four band values on a series of at least 20 bars, in terms of the
mean and sample standard deviation of the trailing 20 closes. -/
theorem calculate_bollinger_bands_of_len (l : List Bar) (h : 20 ≤ l.length) :
    calculate_bollinger_bands (some l) 20 2 =
      (some ((mean (tailN 20 (l.map Bar.close)) : ℝ) +
          Real.sqrt ((sampleVar (tailN 20 (l.map Bar.close)) : ℚ) : ℝ) * 2),
       some ((mean (tailN 20 (l.map Bar.close)) : ℝ)),
       some ((mean (tailN 20 (l.map Bar.close)) : ℝ) -
          Real.sqrt ((sampleVar (tailN 20 (l.map Bar.close)) : ℚ) : ℝ) * 2),
       some (((l.map Bar.close).getLastD 0 : ℚ) : ℝ)) := by
  simp [calculate_bollinger_bands, Nat.not_lt.mpr h]

/-- Whenever the band computation is defined, the lower band is at most
the upper band: the standard deviation is a square root, hence
non-negative. -/
theorem bands_lower_le_upper (l : List Bar) (u m lo c : ℝ)
    (h2 : calculate_bollinger_bands (some l) 20 2 = (some u, some m, some lo, some c)) :
    lo ≤ u := by
  by_cases hlen : l.length < 20
  · simp [calculate_bollinger_bands, hlen] at h2
  · rw [calculate_bollinger_bands_of_len l (Nat.not_lt.mp hlen)] at h2
    simp only [Prod.mk.injEq, Option.some.injEq] at h2
    rcases h2 with ⟨hu, hm, hlo, hc⟩
    have hs : (0 : ℝ) ≤ Real.sqrt ((sampleVar (tailN 20 (l.map Bar.close)) : ℚ) : ℝ) :=
      Real.sqrt_nonneg _
    rw [← hu, ← hlo]
    linarith

/-- C8: on any series of at least 20 bars the bands are defined with
lower at most upper, so the strong-buy condition (close below lower, RPP
below buy threshold) and the strong-sell condition (close above upper,
RPP above sell threshold) can never hold on the same snapshot; checking
buy before sell therefore cannot change the verdict. -/
theorem bollinger_bands_ordered_and_exclusive (l : List Bar)
    (h : 20 ≤ l.length) :
    ∃ u m lo c : ℝ,
      calculate_bollinger_bands (some l) 20 2 = (some u, some m, some lo, some c) ∧
      lo ≤ u ∧
      ∀ cp r buy sell : ℚ,
        ¬ ((((cp : ℝ) < lo) ∧ r < buy) ∧ ((u < (cp : ℝ)) ∧ sell < r)) := by
  refine ⟨_, _, _, _, calculate_bollinger_bands_of_len l h, ?_, ?_⟩
  · have hs : (0 : ℝ) ≤ Real.sqrt ((sampleVar (tailN 20 (l.map Bar.close)) : ℚ) : ℝ) :=
      Real.sqrt_nonneg _
    linarith
  · rintro cp r buy sell ⟨⟨hblo, -⟩, ⟨hbup, -⟩⟩
    have hs : (0 : ℝ) ≤ Real.sqrt ((sampleVar (tailN 20 (l.map Bar.close)) : ℚ) : ℝ) :=
      Real.sqrt_nonneg _
    linarith

/-- C8 witness: the theorem applied to a concrete 20-bar series. -/
theorem bollinger_bands_ordered_and_exclusive_witness :
    20 ≤ (List.replicate 20 (mkBar 100)).length ∧
    ∃ u m lo c : ℝ,
      calculate_bollinger_bands (some (List.replicate 20 (mkBar 100))) 20 2 =
        (some u, some m, some lo, some c) ∧
      lo ≤ u ∧
      ∀ cp r buy sell : ℚ,
        ¬ ((((cp : ℝ) < lo) ∧ r < buy) ∧ ((u < (cp : ℝ)) ∧ sell < r)) :=
  ⟨by simp, bollinger_bands_ordered_and_exclusive _ (by simp)⟩

/-- C7: on an absent series or one of fewer than 20 bars, the Bollinger
computation yields all four outputs undefined and the overall analysis
yields no verdict, with no exception (the embedding is a total
function). -/
theorem bollinger_insufficient_history (df : Option (List Bar))
    (h : df = none ∨ ∃ l, df = some l ∧ l.length < 20) :
    calculate_bollinger_bands df 20 2 = (none, none, none, none) ∧
    ∀ buy sell : ℚ, analyze_stock df buy sell = none := by
  rcases h with h | ⟨l, rfl, hlen⟩
  · subst h
    exact ⟨rfl, fun _ _ => rfl⟩
  · constructor
    · simp [calculate_bollinger_bands, hlen]
    · intro buy sell
      simp [analyze_stock, calculate_rpp_short l hlen]

/-- C7 witness: a concrete 19-bar series has all four band outputs
undefined and produces no verdict. -/
theorem bollinger_insufficient_history_witness :
    ((some (List.replicate 19 (mkBar 100)) : Option (List Bar)) = none ∨
      ∃ l, (some (List.replicate 19 (mkBar 100)) : Option (List Bar)) = some l ∧
        l.length < 20) ∧
    calculate_bollinger_bands (some (List.replicate 19 (mkBar 100))) 20 2 =
      (none, none, none, none) ∧
    ∀ buy sell : ℚ,
      analyze_stock (some (List.replicate 19 (mkBar 100))) buy sell = none :=
  ⟨Or.inr ⟨_, rfl, by simp⟩,
   bollinger_insufficient_history _ (Or.inr ⟨_, rfl, by simp⟩)⟩

/-- C3: on at least 20 bars, RPP is computed over the trailing window of
at most 180 bars: undefined score (with the current price still reported)
when the window's maximal High equals its minimal Low, otherwise the
normalized position of the last Close in the window's Low/High range,
scaled to a percentage; the score can exceed the nominal [0, 100] range;
and on fewer than 20 bars the whole result is undefined. -/
theorem calculate_rpp_spec (l : List Bar) :
    (20 ≤ l.length →
      (seriesMax ((l.drop (l.length - 180)).map Bar.high) =
          seriesMin ((l.drop (l.length - 180)).map Bar.low) →
        calculate_rpp (some l) =
          (none, some (((l.drop (l.length - 180)).map Bar.close).getLastD 0))) ∧
      (seriesMax ((l.drop (l.length - 180)).map Bar.high) ≠
          seriesMin ((l.drop (l.length - 180)).map Bar.low) →
        calculate_rpp (some l) =
          (some ((((l.drop (l.length - 180)).map Bar.close).getLastD 0 -
                seriesMin ((l.drop (l.length - 180)).map Bar.low)) /
              (seriesMax ((l.drop (l.length - 180)).map Bar.high) -
                seriesMin ((l.drop (l.length - 180)).map Bar.low)) * 100),
           some (((l.drop (l.length - 180)).map Bar.close).getLastD 0)))) ∧
    (l.length < 20 → calculate_rpp (some l) = (none, none)) ∧
    (∃ l3 : List Bar, 20 ≤ l3.length ∧
      ∃ s, (calculate_rpp (some l3)).1 = some s ∧ 100 < s) := by
  refine ⟨?_, calculate_rpp_short l, ?_⟩
  · intro h20
    constructor <;> intro hflat <;> rw [List.map_drop, List.map_drop] at hflat <;>
      simp [calculate_rpp, Nat.not_lt.mpr h20, rpp_window_eq, hflat, List.map_drop]
  · refine ⟨List.replicate 19 (mkBar 100) ++ [mkBar 200], by simp, 550, ?_, by norm_num⟩
    norm_num [calculate_rpp, tailN, seriesMin, seriesMax, mkBar, List.replicate]

/-- C2: when both indicators are defined on a series, the verdict is
strong-buy exactly when the last close is below the lower band and RPP is
below the buy threshold, strong-sell exactly when the last close is above
the upper band and RPP is above the sell threshold, and no verdict in
every other case; a verdict always carries exactly two triggers, the band
condition first and the RPP condition second. -/
theorem analyze_stock_classification (l : List Bar)
    (rpp_buy rpp_sell r cp : ℚ) (u m lo c : ℝ)
    (h1 : calculate_rpp (some l) = (some r, some cp))
    (h2 : calculate_bollinger_bands (some l) 20 2 = (some u, some m, some lo, some c)) :
    ((∃ a, analyze_stock (some l) rpp_buy rpp_sell = some a ∧
        a.signal = SignalKind.strongBuy) ↔ ((cp : ℝ) < lo ∧ r < rpp_buy)) ∧
    ((∃ a, analyze_stock (some l) rpp_buy rpp_sell = some a ∧
        a.signal = SignalKind.strongSell) ↔ (u < (cp : ℝ) ∧ rpp_sell < r)) ∧
    (¬ ((cp : ℝ) < lo ∧ r < rpp_buy) → ¬ (u < (cp : ℝ) ∧ rpp_sell < r) →
      analyze_stock (some l) rpp_buy rpp_sell = none) ∧
    (∀ a, analyze_stock (some l) rpp_buy rpp_sell = some a →
      (a.signal = SignalKind.strongBuy ∧
        a.triggers = [Trigger.priceBelowLowerBand lo,
                      Trigger.rppBelowBuyThreshold r rpp_buy]) ∨
      (a.signal = SignalKind.strongSell ∧
        a.triggers = [Trigger.priceAboveUpperBand u,
                      Trigger.rppAboveSellThreshold r rpp_sell])) := by
  have hlou : lo ≤ u := bands_lower_le_upper l u m lo c h2
  have ha : analyze_stock (some l) rpp_buy rpp_sell =
      if (cp : ℝ) < lo ∧ r < rpp_buy then
        some { signal := SignalKind.strongBuy
               current_price := cp
               rpp_score := r
               lower_band := lo
               upper_band := u
               middle_band := m
               triggers := [Trigger.priceBelowLowerBand lo,
                            Trigger.rppBelowBuyThreshold r rpp_buy] }
      else if u < (cp : ℝ) ∧ rpp_sell < r then
        some { signal := SignalKind.strongSell
               current_price := cp
               rpp_score := r
               lower_band := lo
               upper_band := u
               middle_band := m
               triggers := [Trigger.priceAboveUpperBand u,
                            Trigger.rppAboveSellThreshold r rpp_sell] }
      else none := by
    simp only [analyze_stock, h1, h2]
  by_cases hbuy : (cp : ℝ) < lo ∧ r < rpp_buy
  · rw [ha, if_pos hbuy]
    refine ⟨by simp [hbuy], ?_, fun hnb _ => absurd hbuy hnb, ?_⟩
    · constructor
      · rintro ⟨a, haa, hsig⟩
        injection haa with haa
        rw [← haa] at hsig
        exact absurd hsig (by simp)
      · rintro ⟨hup, -⟩
        exact absurd (lt_trans hup (lt_of_lt_of_le hbuy.1 hlou)) (lt_irrefl _)
    · rintro a haa
      injection haa with haa
      subst haa
      exact Or.inl ⟨rfl, rfl⟩
  · by_cases hsell : u < (cp : ℝ) ∧ rpp_sell < r
    · rw [ha, if_neg hbuy, if_pos hsell]
      refine ⟨?_, by simp [hsell], fun _ hns => absurd hsell hns, ?_⟩
      · constructor
        · rintro ⟨a, haa, hsig⟩
          injection haa with haa
          rw [← haa] at hsig
          exact absurd hsig (by simp)
        · intro hb
          exact absurd hb hbuy
      · rintro a haa
        injection haa with haa
        subst haa
        exact Or.inr ⟨rfl, rfl⟩
    · rw [ha, if_neg hbuy, if_neg hsell]
      exact ⟨by simp [hbuy], by simp [hsell], fun _ _ => rfl,
        fun a haa => absurd haa (by simp)⟩

/-- A concrete 20-bar series whose trailing 20 closes have mean 100 and
sample variance 4, with the last close 95 below the lower band 96. -/
def exSeries : List Bar :=
  [mkBar 107, mkBar 99, mkBar 99] ++ List.replicate 16 (mkBar 100) ++ [mkBar 95]

/-- C2 witness: the classification theorem applied to exSeries with
buy threshold 30 and sell threshold 90; both indicators are defined
(RPP 25, bands 104/100/96) and the strong-buy characterization is
settled at those values. -/
theorem analyze_stock_classification_witness :
    calculate_rpp (some exSeries) = (some 25, some 95) ∧
    calculate_bollinger_bands (some exSeries) 20 2 =
      (some 104, some 100, some 96, some 95) ∧
    ((∃ a, analyze_stock (some exSeries) 30 90 = some a ∧
        a.signal = SignalKind.strongBuy) ↔
      (((95 : ℚ) : ℝ) < 96 ∧ (25 : ℚ) < 30)) := by
  have hlen : 20 ≤ exSeries.length := by norm_num [exSeries, List.replicate]
  have h1 : calculate_rpp (some exSeries) = (some 25, some 95) := by
    norm_num [calculate_rpp, tailN, seriesMin, seriesMax, exSeries, mkBar,
      List.replicate]
  have hmean : mean (tailN 20 (exSeries.map Bar.close)) = 100 := by
    norm_num [exSeries, mkBar, tailN, mean, List.replicate]
  have hvar : sampleVar (tailN 20 (exSeries.map Bar.close)) = 4 := by
    norm_num [exSeries, mkBar, tailN, sampleVar, mean, List.replicate]
  have hlast : (exSeries.map Bar.close).getLastD 0 = 95 := by
    norm_num [exSeries, mkBar, List.replicate]
  have hs4 : Real.sqrt ((4 : ℚ) : ℝ) = 2 := by
    rw [show ((4 : ℚ) : ℝ) = 2 ^ 2 by norm_num,
      Real.sqrt_sq (by norm_num : (0 : ℝ) ≤ 2)]
  have h2 : calculate_bollinger_bands (some exSeries) 20 2 =
      (some 104, some 100, some 96, some 95) := by
    rw [calculate_bollinger_bands_of_len exSeries hlen, hmean, hvar, hlast, hs4]
    norm_num
  exact ⟨h1, h2,
    (analyze_stock_classification exSeries 30 90 25 95 104 100 96 95 h1 h2).1⟩
